import Mathlib

/-!
Shallow embedding of `friendli/sdk/api/base.py` (friendli-client):
the request-construction and response-dispatch layer of the Friendli
serving SDK.  Python dicts are modelled as insertion-ordered association
lists, `None` as an explicit value constructor, in-place mutation of the
payload dict as explicit state passing (functions return the mutated
dict), and raised exceptions as `Except` results.  External collaborators
(the httpx transport, the auth provider, the protobuf schema) are
modelled as function parameters / structure fields with the narrow
interface the code uses.
-/

namespace Friendli

/-- Values a payload dict field may hold.  `pynone` is Python `None`;
the claims under study only inspect null-ness and string values, so
nested structures are not materialised here. -/
inductive PyValue where
  | pynone
  | str (s : String)
  | int (n : Int)
  | bool (b : Bool)
  deriving DecidableEq, Repr

/-- A Python dict `dict[str, Any]`, as an insertion-ordered association
list with unique keys (Python dict semantics). -/
abbrev Payload := List (String × PyValue)

/-- `d[k] = v` on a Python dict: overwrite in place if the key exists
(keeping its position), append otherwise. -/
def dictSet (d : Payload) (k : String) (v : PyValue) : Payload :=
  match d with
  | [] => [(k, v)]
  | (k', v') :: rest => if k' = k then (k, v) :: rest else (k', v') :: dictSet rest k v

/-- `d.get(k)` on a Python dict. -/
def dictGet (d : Payload) (k : String) : Option PyValue :=
  match d with
  | [] => Option.none
  | (k', v') :: rest => if k' = k then some v' else dictGet rest k

/-- An optional Python string stored into a dict slot (`data["model"] = model`
where `model: Optional[str]`). -/
def optStr (m : Option String) : PyValue :=
  match m with
  | some s => PyValue.str s
  | Option.none => PyValue.pynone

/-- Whether one character list is a prefix of another (structural, so the
kernel can evaluate it on concrete strings). -/
def charsStartWith : List Char → List Char → Bool
  | _, [] => true
  | [], _ :: _ => false
  | c :: cs, p :: ps => c = p && charsStartWith cs ps

/-- Python `s.startswith(pre)`. -/
def pyStartsWith (s pre : String) : Bool :=
  charsStartWith s.data pre.data

/-- Python `s.endswith(post)`. -/
def pyEndsWith (s post : String) : Bool :=
  charsStartWith s.data.reverse post.data.reverse

/-- The `/`-separated components of a path string (`path.split("/")`),
used to speak about path segments. -/
def segsAux : List Char → List Char → List String
  | [], acc => [String.mk acc.reverse]
  | c :: cs, acc =>
    if c = '/' then String.mk acc.reverse :: segsAux cs []
    else segsAux cs (c :: acc)

/-- Path segments of a string. -/
def pathSegments (s : String) : List String :=
  segsAux s.data []

/-- JSON escaping of one character, as `json.dumps` produces for the
characters exercised here. -/
def jsonEscapeChar (c : Char) : String :=
  if c = '"' then "\\\""
  else if c = '\\' then "\\\\"
  else String.singleton c

/-- JSON string escaping. -/
def jsonEscape (s : String) : String :=
  String.join (s.data.map jsonEscapeChar)

/-- JSON rendering of one payload value (`json.dumps` scalar forms). -/
def pyValueJson : PyValue → String
  | PyValue.pynone => "null"
  | PyValue.str s => "\"" ++ jsonEscape s ++ "\""
  | PyValue.int n => toString n
  | PyValue.bool b => if b then "true" else "false"

/-- `json.dumps(data)` on a dict with default separators. -/
def jsonDumps (d : Payload) : String :=
  "\x7b" ++ String.intercalate ", "
    (d.map fun kv => "\"" ++ jsonEscape kv.1 ++ "\": " ++ pyValueJson kv.2) ++ "\x7d"

/-- POSIX `os.path.join(a, b)` for two components, as used by
`BaseAPI._build_url`: an absolute second component discards the first. -/
def osPathJoin (a b : String) : String :=
  if pyStartsWith b "/" then b
  else if a = "" then b
  else if pyEndsWith a "/" then a ++ b
  else a ++ "/" ++ b

/-- The state of a `BaseAPI` instance (`base_url`/`_host`, `_endpoint_id`,
`_use_protobuf`) together with the abstract members a concrete API class
provides (`_api_path`, `_method`, `_content_type`) and the external
collaborators: the protobuf schema serializer
(`json_format.ParseDict` + `SerializeToString`, strict schema parsing,
modelled as an opaque-to-us function field returning the wire text) and
the auth provider (`get_auth_header()`). -/
structure API where
  host : String
  endpointId : Option String
  useProtobuf : Bool
  apiPath : String
  method : String
  contentType : String
  pbSerialize : Payload → String
  authHeaders : List (String × String)

/-- `BaseAPI._build_url`: the `path` local variable —
`"dedicated"` when `_endpoint_id` is set, joined with `_api_path` via
`os.path.join`.  (The final `self._host.join(path)` RFC-3986 resolution
against the base URL is the external httpx URL class; the claims concern
this path component.) -/
def buildUrlPath (api : API) : String :=
  osPathJoin (match api.endpointId with
    | some _ => "dedicated"
    | Option.none => "") api.apiPath

/-- `BaseAPI._get_headers`. -/
def getHeaders (api : API) : List (String × String) :=
  ("Content-Type", api.contentType) :: api.authHeaders

/-- A multipart file part `(None, val)`: null filename with the field value. -/
abbrev FilePart := Option String × PyValue

/-- `BaseAPI._build_files`: for multipart content types, every non-null
payload field becomes a file part with a null filename; otherwise `None`. -/
def buildFiles (api : API) (data : Payload) : Option (List (String × FilePart)) :=
  if pyStartsWith api.contentType "multipart/form-data" then
    some (data.filterMap fun kv =>
      if kv.2 = PyValue.pynone then Option.none
      else some (kv.1, (Option.none, kv.2)))
  else Option.none

/-- The value `_build_content` writes into `data["model"]`: the endpoint id
when set, else the caller-supplied `model` argument. -/
def resolvedModel (api : API) (model : Option String) : PyValue :=
  match api.endpointId with
  | some e => PyValue.str e
  | Option.none => optStr model

/-- `BaseAPI._build_content`: mutates `data["model"]` in place (returned
here as the first component), then produces the body — `None` for
multipart, the protobuf wire form when `_use_protobuf`, else
`json.dumps(data).encode()` (bodies are modelled as their decoded text). -/
def buildContent (api : API) (data : Payload) (model : Option String) :
    Payload × Option String :=
  let data' :=
    match api.endpointId with
    | some e => dictSet data "model" (PyValue.str e)
    | Option.none => dictSet data "model" (optStr model)
  if pyStartsWith api.contentType "multipart/form-data" then
    (data', Option.none)
  else if api.useProtobuf then
    (data', some (api.pbSerialize data'))
  else
    (data', some (jsonDumps data'))

/-- The transport request assembled by `BaseAPI._build_request`
(`timeout` is the fixed `DEFAULT_REQ_TIMEOUT`, not modelled). -/
structure Request where
  method : String
  urlPath : String
  content : Option String
  files : Option (List (String × FilePart))
  headers : List (String × String)
  deriving DecidableEq, Repr

/-- `BaseAPI._build_request`: keyword arguments are evaluated in order, so
`_build_content` runs (and mutates the payload dict) before `_build_files`
reads the same dict.  Returns the request together with the mutated dict
(the caller's `data` object after the call). -/
def buildRequest (api : API) (data : Payload) (model : Option String) :
    Request × Payload :=
  let dc := buildContent api data model
  let files := buildFiles api dc.fst
  (⟨api.method, buildUrlPath api, dc.snd, files, getHeaders api⟩, dc.fst)

/-- An httpx response: status code and body (as its decoded text). -/
structure Response where
  status : Nat
  body : String
  deriving DecidableEq, Repr

/-- `httpx.HTTPStatusError`, as raised by `Response.raise_for_status`. -/
structure HTTPStatusError where
  status : Nat
  deriving DecidableEq, Repr

/-- `friendli.errors.APIError`: message plus the `from exc` cause. -/
structure APIError where
  message : String
  cause : Option HTTPStatusError
  deriving DecidableEq, Repr

/-- `response.raise_for_status()` of the httpx transport, per its
contract: a 2xx (success) response raises nothing, any other status
raises `HTTPStatusError`. -/
def raiseForStatus (r : Response) : Option HTTPStatusError :=
  if 200 ≤ r.status ∧ r.status < 300 then Option.none else some ⟨r.status⟩

/-- The fixed 404 guidance message of `_check_http_error` (verbatim,
including the upstream misspelling of "available"). -/
def notFoundMessage : String :=
  "Endpoint is not found. This may be due to an invalid model name. " ++
  "See https://docs.friendli.ai/guides/serverless_endpoints/pricing " ++
  "to find out availble models."

/-- `ServingAPI._check_http_error` / `AsyncServingAPI._check_http_error`
(the two bodies are textually identical): the raised `APIError` if any,
paired with whether `response.read()` / `response.aread()` was invoked
(whether the body was buffered). -/
def checkHttpError (r : Response) : Option APIError × Bool :=
  match raiseForStatus r with
  | Option.none => (Option.none, false)
  | some exc =>
    if r.status = 404 then
      (some ⟨notFoundMessage, some exc⟩, false)
    else
      (some ⟨r.body, some exc⟩, true)

/-- Errors a call executor can raise: `ValueError` precondition failures
and translated `APIError`s. -/
inductive SdkError where
  | valueError (msg : String)
  | apiError (e : APIError)
  deriving DecidableEq, Repr

/-- Precondition message for serverless calls without a model. -/
def modelRequiredMsg : String := "`model` is required for serverless endpoints."

/-- Precondition message for dedicated calls with a model. -/
def modelNotAllowedMsg : String := "`model` is not allowed for dedicated endpoints."

/-- The hardcoded production host the synchronous executor compares
`self._host` against. -/
def prodHost : String := "https://inference.friendli.ai"

/-- `ServingAPI._request`: precondition checks (the serverless-model check
guarded by the host comparison), request building, transport send
(`send` stands for the `httpx.Client`), error translation, and the
returned response.  The mutated payload dict is returned alongside to
expose the frame effect on the caller's dict. -/
def syncRequest (api : API) (data : Payload) (stream : Bool)
    (model : Option String) (send : Request → Bool → Response) :
    Except SdkError (Response × Payload) :=
  if api.host = prodHost ∧ api.endpointId = Option.none ∧ model = Option.none then
    Except.error (SdkError.valueError modelRequiredMsg)
  else if api.endpointId ≠ Option.none ∧ model ≠ Option.none then
    Except.error (SdkError.valueError modelNotAllowedMsg)
  else
    let rd := buildRequest api data model
    let resp := send rd.fst stream
    match (checkHttpError resp).fst with
    | some e => Except.error (SdkError.apiError e)
    | Option.none => Except.ok (resp, rd.snd)

/-- `AsyncServingAPI._request`: as `ServingAPI._request` but the
serverless-model precondition is checked unconditionally (no host guard);
`send` stands for the awaited `httpx.AsyncClient` exchange. -/
def asyncRequest (api : API) (data : Payload) (stream : Bool)
    (model : Option String) (send : Request → Bool → Response) :
    Except SdkError (Response × Payload) :=
  if api.endpointId = Option.none ∧ model = Option.none then
    Except.error (SdkError.valueError modelRequiredMsg)
  else if api.endpointId ≠ Option.none ∧ model ≠ Option.none then
    Except.error (SdkError.valueError modelNotAllowedMsg)
  else
    let rd := buildRequest api data model
    let resp := send rd.fst stream
    match (checkHttpError resp).fst with
    | some e => Except.error (SdkError.apiError e)
    | Option.none => Except.ok (resp, rd.snd)

end Friendli

namespace Friendli

/-- Concrete transport stub: every exchange answers 200 with body "ok". -/
def sendOk200 : Request → Bool → Response := fun _ _ => ⟨200, "ok"⟩

/-- A serverless (no endpoint id) JSON API client against a non-production
base URL. -/
def apiLocalServerless : API :=
  ⟨"http://localhost:8000", Option.none, false, "v1/completions", "POST",
    "application/json", fun _ => "", []⟩

/-- A serverless JSON API client against the production base URL. -/
def apiProdServerless : API :=
  ⟨"https://inference.friendli.ai", Option.none, false, "v1/completions", "POST",
    "application/json", fun _ => "", []⟩

/-- A dedicated-endpoint JSON API client with a relative api path. -/
def apiDedicated : API :=
  ⟨"https://api.friendli.ai", some "ep-1", false, "v1/completions", "POST",
    "application/json", fun _ => "", []⟩

/-- A dedicated-endpoint JSON API client whose api path is absolute. -/
def apiDedicatedAbsPath : API :=
  ⟨"https://api.friendli.ai", some "ep-1", false, "/v1/completions", "POST",
    "application/json", fun _ => "", []⟩

/-- A serverless multipart API client. -/
def apiMultipartServerless : API :=
  ⟨"https://api.friendli.ai", Option.none, false, "v1/text-to-image", "POST",
    "multipart/form-data", fun _ => "", []⟩

/-- A dedicated-endpoint multipart API client. -/
def apiMultipartDedicated : API :=
  ⟨"https://api.friendli.ai", some "ep-1", false, "v1/text-to-image", "POST",
    "multipart/form-data", fun _ => "", []⟩

end Friendli

deriving instance DecidableEq for Except

namespace Friendli

/-- Looking up the key just stored yields the stored value. -/
theorem dictGet_dictSet (d : Payload) (k : String) (v : PyValue) :
    dictGet (dictSet d k v) k = some v := by
  induction d with
  | nil => simp [dictSet, dictGet]
  | cons kv rest ih =>
    obtain ⟨k', v'⟩ := kv
    by_cases h : k' = k
    · simp [dictSet, dictGet, h]
    · simp [dictSet, dictGet, h, ih]

/-- The stored pair is a member of the updated dict. -/
theorem mem_dictSet (d : Payload) (k : String) (v : PyValue) :
    (k, v) ∈ dictSet d k v := by
  induction d with
  | nil => simp [dictSet]
  | cons kv rest ih =>
    obtain ⟨k', v'⟩ := kv
    by_cases h : k' = k
    · simp [dictSet, h]
    · simp [dictSet, h]
      exact Or.inr ih

/-- The payload dict after `_build_content` is the input dict with
`"model"` set to the resolved model value. -/
theorem buildContent_fst (api : API) (data : Payload) (model : Option String) :
    (buildContent api data model).fst = dictSet data "model" (resolvedModel api model) := by
  unfold buildContent resolvedModel
  cases api.endpointId <;> split_ifs <;> rfl

end Friendli

namespace Friendli

/-- C1: the claim says both executors raise a precondition error whenever
endpoint_id and model are both absent (or both present) before any request
is built.  The code violates this: `ServingAPI._request` guards the
serverless-model check behind `self._host == "https://inference.friendli.ai"`,
so against a non-production base URL with endpoint_id and model both absent
no error is raised — the request is built, sent with a null model field,
and the call returns normally. -/
theorem c1_sync_skips_serverless_check :
    syncRequest apiLocalServerless [] false Option.none sendOk200
      = Except.ok (⟨200, "ok"⟩, [("model", PyValue.pynone)]) := by decide

/-- C2 counterexample: the synchronous and asynchronous executors are not
identical in logic — on a non-production host with endpoint_id and model
both absent, the synchronous executor proceeds while the asynchronous one
raises the precondition error. -/
theorem c2_sync_async_differ :
    syncRequest apiLocalServerless [] false Option.none sendOk200
      ≠ asyncRequest apiLocalServerless [] false Option.none sendOk200 := by decide

/-- C2 (amended): except on the diverging inputs — host different from the
hardcoded production URL with endpoint_id and model both absent — the
synchronous and asynchronous executors agree on every call: same
precondition checks, same built request, same raise/return behavior. -/
theorem c2_sync_async_agree (api : API) (data : Payload) (stream : Bool)
    (model : Option String) (send : Request → Bool → Response)
    (h : api.host = prodHost ∨ api.endpointId ≠ Option.none ∨ model ≠ Option.none) :
    syncRequest api data stream model send = asyncRequest api data stream model send := by
  unfold syncRequest asyncRequest
  by_cases h1 : api.endpointId = Option.none ∧ model = Option.none
  · rcases h with hh | hne | hne
    · rw [if_pos ⟨hh, h1.1, h1.2⟩, if_pos h1]
    · exact absurd h1.1 hne
    · exact absurd h1.2 hne
  · have hs : ¬ (api.host = prodHost ∧ api.endpointId = Option.none ∧ model = Option.none) :=
      fun hc => h1 ⟨hc.2.1, hc.2.2⟩
    rw [if_neg hs, if_neg h1]

/-- C2 witness: the amended equivalence at a concrete production-host call. -/
theorem c2_sync_async_agree_witness :
    (apiProdServerless.host = prodHost ∨ apiProdServerless.endpointId ≠ Option.none
      ∨ (some "llama" : Option String) ≠ Option.none)
    ∧ syncRequest apiProdServerless [("prompt", PyValue.str "hi")] false (some "llama") sendOk200
      = asyncRequest apiProdServerless [("prompt", PyValue.str "hi")] false (some "llama") sendOk200 :=
  ⟨Or.inl rfl,
    c2_sync_async_agree apiProdServerless [("prompt", PyValue.str "hi")] false (some "llama")
      sendOk200 (Or.inl rfl)⟩

/-- C3: every 404 response is translated to an `APIError` whose message is
the fixed guidance text (steering the caller toward checking the
model/endpoint name), regardless of the response body; the body is not
read (second component `false`), and the status exception is the cause. -/
theorem c3_not_found_fixed_message (r : Response) (h : r.status = 404) :
    checkHttpError r = (some ⟨notFoundMessage, some ⟨404⟩⟩, false) := by
  unfold checkHttpError raiseForStatus
  rw [h]
  simp

/-- C3 witness: a 404 response with body "not found" yields the fixed
guidance message, not "not found". -/
theorem c3_not_found_fixed_message_witness :
    (Response.mk 404 "not found").status = 404
    ∧ checkHttpError ⟨404, "not found"⟩ = (some ⟨notFoundMessage, some ⟨404⟩⟩, false) :=
  ⟨rfl, c3_not_found_fixed_message ⟨404, "not found"⟩ rfl⟩

/-- C4: every non-2xx response other than 404 is translated to an
`APIError` whose message is the decoded response body verbatim, the body
having been read in full (second component `true`), with the original
status exception preserved as the cause. -/
theorem c4_other_error_body_verbatim (r : Response)
    (hs : ¬ (200 ≤ r.status ∧ r.status < 300)) (h404 : r.status ≠ 404) :
    checkHttpError r = (some ⟨r.body, some ⟨r.status⟩⟩, true) := by
  unfold checkHttpError raiseForStatus
  rw [if_neg hs]
  simp [h404]

/-- C4 witness: a 500 response with body "internal error" yields an error
whose message equals "internal error" exactly. -/
theorem c4_other_error_body_verbatim_witness :
    ¬ (200 ≤ (500 : Nat) ∧ (500 : Nat) < 300) ∧ (500 : Nat) ≠ 404
    ∧ checkHttpError ⟨500, "internal error"⟩
      = (some ⟨"internal error", some ⟨500⟩⟩, true) :=
  ⟨by decide, by decide,
    c4_other_error_body_verbatim ⟨500, "internal error"⟩ (by decide) (by decide)⟩

/-- C5 counterexample: with endpoint_id set but an absolute api path, the
built URL path is the api path alone — `os.path.join` discards the
"dedicated" prefix, so the path does not begin with (or contain) the
dedicated segment, refuting the claim as universally stated. -/
theorem c5_absolute_path_drops_dedicated :
    buildUrlPath apiDedicatedAbsPath = "/v1/completions"
    ∧ "dedicated" ∉ pathSegments (buildUrlPath apiDedicatedAbsPath) := by decide

/-- C5 (amended): provided the api path is relative (does not begin with
"/"), calls with endpoint_id set build the URL path "dedicated/" followed
by the api path — beginning with the dedicated segment — and calls without
endpoint_id build exactly the api path, so the builder never introduces a
dedicated segment for serverless calls. -/
theorem c5_dedicated_routing (api : API) (h : pyStartsWith api.apiPath "/" = false) :
    (∀ e, api.endpointId = some e → buildUrlPath api = "dedicated/" ++ api.apiPath)
    ∧ (api.endpointId = Option.none → buildUrlPath api = api.apiPath) := by
  constructor
  · intro e he
    unfold buildUrlPath osPathJoin
    rw [he]
    simp only [h]
    rw [if_neg (by decide)]
    rw [if_neg (by decide : ¬ ("dedicated" = ""))]
    rw [if_neg (by decide : ¬ (pyEndsWith "dedicated" "/" = true))]
    rfl
  · intro he
    unfold buildUrlPath osPathJoin
    rw [he]
    simp [h]

/-- C5 witness: the amended routing property at a concrete dedicated
client with a relative api path. -/
theorem c5_dedicated_routing_witness :
    pyStartsWith apiDedicated.apiPath "/" = false
    ∧ ((∀ e, apiDedicated.endpointId = some e
          → buildUrlPath apiDedicated = "dedicated/" ++ apiDedicated.apiPath)
      ∧ (apiDedicated.endpointId = Option.none
          → buildUrlPath apiDedicated = apiDedicated.apiPath)) :=
  ⟨by decide, c5_dedicated_routing apiDedicated (by decide)⟩

/-- C6: body construction writes the resolved model into the payload —
`data["model"]` becomes the endpoint id when one is set, else the
caller-supplied model argument — and the JSON body is the serialization of
that already-mutated dict (injection happens before serialization). -/
theorem c6_model_resolution (api : API) (data : Payload) (model : Option String)
    (hmp : pyStartsWith api.contentType "multipart/form-data" = false)
    (hpb : api.useProtobuf = false) :
    (∀ e, api.endpointId = some e
        → dictGet (buildContent api data model).fst "model" = some (PyValue.str e))
    ∧ (api.endpointId = Option.none
        → dictGet (buildContent api data model).fst "model" = some (optStr model))
    ∧ (buildContent api data model).snd
        = some (jsonDumps (buildContent api data model).fst) := by
  refine ⟨?_, ?_, ?_⟩
  · intro e he
    rw [buildContent_fst, dictGet_dictSet]
    unfold resolvedModel
    rw [he]
  · intro he
    rw [buildContent_fst, dictGet_dictSet]
    unfold resolvedModel
    rw [he]
  · unfold buildContent
    cases api.endpointId <;> simp [hmp, hpb]

/-- C6 witness: model resolution on a concrete serverless JSON call. -/
theorem c6_model_resolution_witness :
    pyStartsWith apiProdServerless.contentType "multipart/form-data" = false
    ∧ apiProdServerless.useProtobuf = false
    ∧ ((∀ e, apiProdServerless.endpointId = some e
        → dictGet (buildContent apiProdServerless [("prompt", PyValue.str "hi")] (some "llama")).fst "model"
          = some (PyValue.str e))
      ∧ (apiProdServerless.endpointId = Option.none
        → dictGet (buildContent apiProdServerless [("prompt", PyValue.str "hi")] (some "llama")).fst "model"
          = some (optStr (some "llama")))
      ∧ (buildContent apiProdServerless [("prompt", PyValue.str "hi")] (some "llama")).snd
          = some (jsonDumps (buildContent apiProdServerless [("prompt", PyValue.str "hi")] (some "llama")).fst)) :=
  ⟨by decide, rfl,
    c6_model_resolution apiProdServerless [("prompt", PyValue.str "hi")] (some "llama")
      (by decide) rfl⟩

/-- C7: for multipart content types the body content is empty (`None`) and
the file parts are exactly the non-null payload fields, each as a distinct
part with a null filename; null-valued fields are omitted. -/
theorem c7_multipart_body_empty_files_parts (api : API) (data : Payload) (model : Option String)
    (hmp : pyStartsWith api.contentType "multipart/form-data" = true) :
    (buildContent api data model).snd = Option.none
    ∧ ∃ fs, buildFiles api data = some fs
      ∧ (∀ k v, (k, v) ∈ data → v ≠ PyValue.pynone → (k, (Option.none, v)) ∈ fs)
      ∧ (∀ k p, (k, p) ∈ fs
          → p.fst = Option.none ∧ p.snd ≠ PyValue.pynone ∧ (k, p.snd) ∈ data) := by
  constructor
  · unfold buildContent
    cases api.endpointId <;> simp [hmp]
  · refine ⟨data.filterMap fun kv =>
      if kv.2 = PyValue.pynone then Option.none else some (kv.1, (Option.none, kv.2)), ?_, ?_, ?_⟩
    · unfold buildFiles
      rw [if_pos hmp]
    · intro k v hm hv
      rw [List.mem_filterMap]
      exact ⟨(k, v), hm, by simp [hv]⟩
    · intro k p hp
      rw [List.mem_filterMap] at hp
      obtain ⟨⟨k', v'⟩, hm, hf⟩ := hp
      by_cases hv : v' = PyValue.pynone
      · simp [hv] at hf
      · simp only [hv, if_false, Option.some.injEq, Prod.mk.injEq] at hf
        obtain ⟨rfl, hp2⟩ := hf
        rw [← hp2]
        exact ⟨rfl, hv, hm⟩

/-- C7 witness: a concrete multipart payload with one non-null and one
null field. -/
theorem c7_multipart_body_empty_files_parts_witness :
    pyStartsWith apiMultipartServerless.contentType "multipart/form-data" = true
    ∧ ((buildContent apiMultipartServerless [("image", PyValue.str "img"), ("mask", PyValue.pynone)] (some "m")).snd = Option.none
      ∧ ∃ fs, buildFiles apiMultipartServerless [("image", PyValue.str "img"), ("mask", PyValue.pynone)] = some fs
        ∧ (∀ k v, (k, v) ∈ [("image", PyValue.str "img"), ("mask", PyValue.pynone)]
            → v ≠ PyValue.pynone → (k, (Option.none, v)) ∈ fs)
        ∧ (∀ k p, (k, p) ∈ fs
            → p.fst = Option.none ∧ p.snd ≠ PyValue.pynone
              ∧ (k, p.snd) ∈ [("image", PyValue.str "img"), ("mask", PyValue.pynone)])) :=
  ⟨by decide,
    c7_multipart_body_empty_files_parts apiMultipartServerless
      [("image", PyValue.str "img"), ("mask", PyValue.pynone)] (some "m") (by decide)⟩

/-- C8: when the precondition checks pass and the transport answers a 2xx
status, the error translator yields no error (and reads no body), and the
synchronous executor returns the transport's response unchanged. -/
theorem c8_success_returns_response (api : API) (data : Payload) (stream : Bool)
    (model : Option String) (send : Request → Bool → Response)
    (hp1 : ¬ (api.host = prodHost ∧ api.endpointId = Option.none ∧ model = Option.none))
    (hp2 : ¬ (api.endpointId ≠ Option.none ∧ model ≠ Option.none))
    (h2 : 200 ≤ (send (buildRequest api data model).fst stream).status
      ∧ (send (buildRequest api data model).fst stream).status < 300) :
    checkHttpError (send (buildRequest api data model).fst stream) = (Option.none, false)
    ∧ syncRequest api data stream model send
      = Except.ok (send (buildRequest api data model).fst stream,
          (buildRequest api data model).snd) := by
  have hch : checkHttpError (send (buildRequest api data model).fst stream)
      = (Option.none, false) := by
    unfold checkHttpError raiseForStatus
    rw [if_pos h2]
  refine ⟨hch, ?_⟩
  unfold syncRequest
  rw [if_neg hp1, if_neg hp2]
  simp [hch]

/-- C8 witness: a concrete serverless call whose transport answers 200. -/
theorem c8_success_returns_response_witness :
    ¬ (apiProdServerless.host = prodHost ∧ apiProdServerless.endpointId = Option.none
        ∧ (some "llama" : Option String) = Option.none)
    ∧ ¬ (apiProdServerless.endpointId ≠ Option.none ∧ (some "llama" : Option String) ≠ Option.none)
    ∧ (200 ≤ (sendOk200 (buildRequest apiProdServerless [("prompt", PyValue.str "hi")] (some "llama")).fst false).status
      ∧ (sendOk200 (buildRequest apiProdServerless [("prompt", PyValue.str "hi")] (some "llama")).fst false).status < 300)
    ∧ (checkHttpError (sendOk200 (buildRequest apiProdServerless [("prompt", PyValue.str "hi")] (some "llama")).fst false) = (Option.none, false)
      ∧ syncRequest apiProdServerless [("prompt", PyValue.str "hi")] false (some "llama") sendOk200
        = Except.ok (sendOk200 (buildRequest apiProdServerless [("prompt", PyValue.str "hi")] (some "llama")).fst false,
            (buildRequest apiProdServerless [("prompt", PyValue.str "hi")] (some "llama")).snd)) :=
  ⟨by decide, by decide, by decide,
    c8_success_returns_response apiProdServerless [("prompt", PyValue.str "hi")] false
      (some "llama") sendOk200 (by decide) (by decide) (by decide)⟩

/-- C9: when the api path begins with "/", `os.path.join` discards the
"dedicated" prefix, so even with endpoint_id set the built URL path is the
api path alone and gains no dedicated segment — the dedicated-routing
guarantee holds only for relative api paths. -/
theorem c9_absolute_path_escapes_dedicated (api : API) (e : String)
    (hep : api.endpointId = some e) (habs : pyStartsWith api.apiPath "/" = true) :
    osPathJoin "dedicated" api.apiPath = api.apiPath
    ∧ buildUrlPath api = api.apiPath
    ∧ ("dedicated" ∉ pathSegments api.apiPath
        → "dedicated" ∉ pathSegments (buildUrlPath api)) := by
  have h1 : osPathJoin "dedicated" api.apiPath = api.apiPath := by
    unfold osPathJoin
    rw [if_pos habs]
  have h2 : buildUrlPath api = api.apiPath := by
    unfold buildUrlPath
    rw [hep]
    exact h1
  exact ⟨h1, h2, fun h => by rw [h2]; exact h⟩

/-- C9 witness: a concrete dedicated client with an absolute api path. -/
theorem c9_absolute_path_escapes_dedicated_witness :
    apiDedicatedAbsPath.endpointId = some "ep-1"
    ∧ pyStartsWith apiDedicatedAbsPath.apiPath "/" = true
    ∧ (osPathJoin "dedicated" apiDedicatedAbsPath.apiPath = apiDedicatedAbsPath.apiPath
      ∧ buildUrlPath apiDedicatedAbsPath = apiDedicatedAbsPath.apiPath
      ∧ ("dedicated" ∉ pathSegments apiDedicatedAbsPath.apiPath
          → "dedicated" ∉ pathSegments (buildUrlPath apiDedicatedAbsPath))) :=
  ⟨rfl, by decide,
    c9_absolute_path_escapes_dedicated apiDedicatedAbsPath "ep-1" rfl (by decide)⟩

/-- C10: `_build_request` evaluates `_build_content` (which mutates the
payload dict in place, injecting the resolved model) before `_build_files`
reads the same dict; hence on a multipart call with a non-null resolved
model the "model" key appears as a file part in the transport request, and
the caller's dict retains the injected "model" key after the call. -/
theorem c10_multipart_model_leak (api : API) (data : Payload) (model : Option String)
    (hmp : pyStartsWith api.contentType "multipart/form-data" = true)
    (hres : resolvedModel api model ≠ PyValue.pynone) :
    (∃ fs, (buildRequest api data model).fst.files = some fs
      ∧ ("model", (Option.none, resolvedModel api model)) ∈ fs)
    ∧ dictGet (buildRequest api data model).snd "model" = some (resolvedModel api model) := by
  have hfst : (buildContent api data model).fst
      = dictSet data "model" (resolvedModel api model) := buildContent_fst api data model
  constructor
  · refine ⟨(dictSet data "model" (resolvedModel api model)).filterMap fun kv =>
      if kv.2 = PyValue.pynone then Option.none else some (kv.1, (Option.none, kv.2)), ?_, ?_⟩
    · show buildFiles api (buildContent api data model).fst = _
      rw [hfst]
      unfold buildFiles
      rw [if_pos hmp]
    · rw [List.mem_filterMap]
      exact ⟨("model", resolvedModel api model), mem_dictSet data "model" _, by simp [hres]⟩
  · show dictGet (buildContent api data model).fst "model" = _
    rw [hfst, dictGet_dictSet]

/-- C10 witness: a concrete dedicated multipart call — the injected model
(the endpoint id) shows up among the file parts and stays in the dict. -/
theorem c10_multipart_model_leak_witness :
    pyStartsWith apiMultipartDedicated.contentType "multipart/form-data" = true
    ∧ resolvedModel apiMultipartDedicated Option.none ≠ PyValue.pynone
    ∧ ((∃ fs, (buildRequest apiMultipartDedicated [("image", PyValue.str "img")] Option.none).fst.files = some fs
        ∧ ("model", (Option.none, resolvedModel apiMultipartDedicated Option.none)) ∈ fs)
      ∧ dictGet (buildRequest apiMultipartDedicated [("image", PyValue.str "img")] Option.none).snd "model"
        = some (resolvedModel apiMultipartDedicated Option.none)) :=
  ⟨by decide, by decide,
    c10_multipart_model_leak apiMultipartDedicated [("image", PyValue.str "img")] Option.none
      (by decide) (by decide)⟩

end Friendli
